import Mathlib

/-!
Shallow embedding of the ecommerce-microservice-go repository core:
the error taxonomy, the JWT issue/verify service, the order
pricing/status engine, the catalog (product) repository with its
duplicate-key detection, and the user/auth login flow.

Conventions of the embedding:
* Go `float64` money values are modelled by exact rationals (`Rat`);
  the source performs only multiplications and additions on them and the
  claims are stated over the same operations.
* Go `int` is modelled by `Int` (overflow does not matter for any claim).
* Fallible Go functions returning `(T, error)` are modelled by
  `Except AppError T` (or `Except String T` where the source returns a
  plain `errors.New` error).
* The relational store is modelled by explicit state passing over lists
  of rows.
-/

namespace ECom

/-! ## Error taxonomy (pkg/errors, documented in part_000 §Error table and
CODING_GUIDELINES; the `Errors.go` file itself is not under src/). -/

inductive ErrorType where
  | notFound
  | validationError
  | resourceAlreadyExists
  | repositoryError
  | notAuthenticated
  | tokenGeneratorError
  | notAuthorized
  | unknownError
deriving DecidableEq, Repr

/-- Modelled from the spec: §4.3 default message of each error kind
(`Errors.go` is referenced by every src file but is itself not under
src/). -/
def defaultMessage : ErrorType → String
  | .notFound => "record not found"
  | .validationError => "validation error"
  | .resourceAlreadyExists => "resource already exists"
  | .repositoryError => "error in repository operation"
  | .notAuthenticated => "not authenticated"
  | .tokenGeneratorError => "error in token generation"
  | .notAuthorized => "not authorized"
  | .unknownError => "something went wrong"

structure AppError where
  message : String
  kind : ErrorType
deriving DecidableEq, Repr

def NewAppError (msg : String) (k : ErrorType) : AppError :=
  { message := msg, kind := k }

def NewAppErrorWithType (k : ErrorType) : AppError :=
  { message := defaultMessage k, kind := k }

/-- Modelled from the spec: §4.3 kind → HTTP status, §6 error body shape
`\x7b"error": "<message>"\x7d`; the boundary middleware
(pkg/middleware ErrorHandler) calls `AppErrorToHTTP`, whose body lives in
the not-included `Errors.go`; per the spec the wire message is the
default message of the kind. -/
def AppErrorToHTTP (e : AppError) : Nat × String :=
  match e.kind with
  | .notFound => (404, defaultMessage .notFound)
  | .validationError => (400, defaultMessage .validationError)
  | .resourceAlreadyExists => (409, defaultMessage .resourceAlreadyExists)
  | .repositoryError => (500, defaultMessage .repositoryError)
  | .notAuthenticated => (401, defaultMessage .notAuthenticated)
  | .tokenGeneratorError => (500, defaultMessage .tokenGeneratorError)
  | .notAuthorized => (403, defaultMessage .notAuthorized)
  | .unknownError => (500, defaultMessage .unknownError)

/-- The JSON error body written by the ErrorHandler middleware
(`c.JSON(status, gin.H\x7b"error": message\x7d)`). -/
def errorBody (e : AppError) : String :=
  "\x7b\"error\":\"" ++ (AppErrorToHTTP e).2 ++ "\"\x7d"

/-! ## JWT service (security package inside pkg/middleware/error_handler.go,
third concatenated file). -/

namespace Security

def Access : String := "access"
def Refresh : String := "refresh"

structure JWTConfig where
  accessSecret : String
  refreshSecret : String
  /-- minutes (JWT_ACCESS_TIME_MINUTE, default 60) -/
  accessTime : Int
  /-- hours (JWT_REFRESH_TIME_HOUR, default 24) -/
  refreshTime : Int
deriving DecidableEq, Repr

/-- The config produced by `loadJWTConfig` when no environment variables
are set. -/
def defaultConfig : JWTConfig :=
  { accessSecret := "default_access_secret"
    refreshSecret := "default_refresh_secret"
    accessTime := 60
    refreshTime := 24 }

/-- A decoded JSON claim value as seen through Go's `interface\x7b\x7d`
after `encoding/json` decoding: numbers (all decode to float64; the
tokens at hand carry integral seconds and ids, modelled by `Int`),
strings, or JSON null. -/
inductive ClaimVal where
  | num (n : Int)
  | str (s : String)
  | null
deriving DecidableEq, Repr

/-- The claim set of a token of this system: `id`, `type`, `exp`
(the only claims `GenerateJWTToken` sets; `none` = key absent). -/
structure TokenClaims where
  id : Option ClaimVal := none
  typ : Option ClaimVal := none
  exp : Option ClaimVal := none
deriving DecidableEq, Repr

/-- A signed JWS as the verifier sees it: the header algorithm, the
decoded claim set, and the symmetric-MAC signature modelled as the
secret that produced it (verification against secret `s` succeeds iff
`sig = s`, the defining property of the HMAC used via
`SignedString([]byte(secretKey))`). -/
structure SignedToken where
  alg : String
  claims : TokenClaims
  sig : String
deriving DecidableEq, Repr

structure AppToken where
  token : SignedToken
  tokenType : String
  /-- Unix seconds -/
  expirationTime : Int
deriving DecidableEq, Repr

/-- `JWTService.GenerateJWTToken` (error_handler.go:200-231): pick the
secret and duration for the token type, set claims
`\x7bid, type, exp := now + duration\x7d`, sign with HS256.
`now` is `time.Now().Unix()`; durations are converted to seconds. -/
def GenerateJWTToken (cfg : JWTConfig) (now : Int) (userID : Int)
    (tokenType : String) : Except String AppToken :=
  if tokenType = Access then
    let exp := now + cfg.accessTime * 60
    .ok { token := { alg := "HS256"
                     claims := { id := some (.num userID)
                                 typ := some (.str tokenType)
                                 exp := some (.num exp) }
                     sig := cfg.accessSecret }
          tokenType := tokenType
          expirationTime := exp }
  else if tokenType = Refresh then
    let exp := now + cfg.refreshTime * 3600
    .ok { token := { alg := "HS256"
                     claims := { id := some (.num userID)
                                 typ := some (.str tokenType)
                                 exp := some (.num exp) }
                     sig := cfg.refreshSecret }
          tokenType := tokenType
          expirationTime := exp }
  else
    .error "invalid token type"

/-- Go `claims["type"] != tokenType`: an `interface\x7b\x7d` value equals a
string iff it is a string with the same contents. -/
def claimIsStr (c : Option ClaimVal) (s : String) : Bool :=
  match c with
  | some (.str t) => t = s
  | _ => false

/-- Modelled from the golang-jwt/jwt v4 library used by the security
package: `jwt.Parse` with `MapClaims` calls `MapClaims.Valid`, which
rejects a present, non-zero, numeric `exp` unless `now.Before(exp)`
holds, i.e. unless `now < exp` (strict); an absent `exp` or the value 0
is treated as unset and passes (`required = false`); a non-numeric `exp`
fails the type switch and is invalid.  `iat`/`nbf` are never set by this
system's tokens and are optional, so they are omitted. -/
def mapClaimsExpOk (now : Int) (c : TokenClaims) : Bool :=
  match c.exp with
  | none => true
  | some (.num e) => if e = 0 then true else now < e
  | some _ => false

/-- `JWTService.GetClaimsAndVerifyToken` (error_handler.go:233-287):
select the secret by expected type (`refresh` → refresh secret,
anything else → access secret), run `jwt.Parse` (header algorithm must
be HS256, signature must verify, library claim validation must pass),
then re-check the `type` claim, the `exp` claim (absent / null /
non-numeric / `now > exp` all fail) and the `id` claim (absent / null /
non-numeric fail).  Every failure is wrapped as `NotAuthenticated`. -/
def GetClaimsAndVerifyToken (cfg : JWTConfig) (now : Int)
    (tok : SignedToken) (tokenType : String) :
    Except AppError TokenClaims :=
  let secretKey := if tokenType = Refresh then cfg.refreshSecret
                   else cfg.accessSecret
  if tok.alg ≠ "HS256" then
    .error (NewAppError "unexpected signing method" .notAuthenticated)
  else if tok.sig ≠ secretKey then
    .error (NewAppError "signature is invalid" .notAuthenticated)
  else if ¬ mapClaimsExpOk now tok.claims then
    .error (NewAppError "token is expired" .notAuthenticated)
  else if ¬ claimIsStr tok.claims.typ tokenType then
    .error (NewAppError "invalid token type" .notAuthenticated)
  else
    match tok.claims.exp with
    | none =>
      .error (NewAppError "token missing expiration (exp) claim" .notAuthenticated)
    | some .null =>
      .error (NewAppError "token missing expiration (exp) claim" .notAuthenticated)
    | some (.str _) =>
      .error (NewAppError "token exp claim is not a float64" .notAuthenticated)
    | some (.num timeExpire) =>
      if now > timeExpire then
        .error (NewAppError "token expired" .notAuthenticated)
      else
        match tok.claims.id with
        | none =>
          .error (NewAppError "token missing id claim" .notAuthenticated)
        | some .null =>
          .error (NewAppError "token missing id claim" .notAuthenticated)
        | some (.str _) =>
          .error (NewAppError "token id claim is not a number" .notAuthenticated)
        | some (.num _) => .ok tok.claims

end Security

/-! ## Order service (services/order: repository + usecase in part_002,
handler in services/order/handler/handler.go; the parallel gbrayhan tree
has the usecase in part_003, the repository in
src/src/infrastructure/repository/psql/order/order.go and the controller
in src/src/infrastructure/rest/controllers/category/category.go). -/

namespace OrderSvc

structure OrderItem where
  id : Int := 0
  orderID : Int := 0
  productID : Int
  quantity : Int
  price : Rat
  subtotal : Rat := 0
deriving DecidableEq, Repr

structure Order where
  id : Int := 0
  userID : Int
  status : String := ""
  totalAmount : Rat := 0
  shippingAddress : String := ""
  items : List OrderItem
deriving DecidableEq, Repr

def OrderStatusPending : String := "pending"

/-- The subtotal/total computation of `OrderUseCase.Create`
(part_002:177-188 and part_003:26-39): each item's subtotal is set to
`quantity * price` and the total is the running sum of the subtotals. -/
def computeItems (items : List OrderItem) : List OrderItem :=
  items.map fun it => { it with subtotal := (it.quantity : Rat) * it.price }

/-- `OrderUseCase.Create` before the repository call: compute subtotals,
overwrite `TotalAmount` with their sum and `Status` with `pending`,
ignoring whatever the caller supplied in those fields. -/
def usecaseCreatePrepared (o : Order) : Order :=
  let items := computeItems o.items
  { o with items := items
           totalAmount := (items.map (·.subtotal)).sum
           status := OrderStatusPending }

/-- The order store: the `orders` table (items inlined) plus the next
auto-increment primary key. -/
structure OrderStore where
  nextID : Int := 1
  orders : List Order := []
deriving DecidableEq, Repr

/-- `Repository.Create` (part_002:84-94): insert the row (GORM assigns
the primary key and the items' foreign keys), then reload it. -/
def repoCreate (st : OrderStore) (o : Order) : Order × OrderStore :=
  let stored :=
    { o with id := st.nextID
             items := o.items.map fun it => { it with orderID := st.nextID } }
  (stored, { nextID := st.nextID + 1, orders := st.orders ++ [stored] })

/-- `OrderUseCase.Create` end to end (part_002:177-188). -/
def usecaseCreate (st : OrderStore) (o : Order) : Order × OrderStore :=
  repoCreate st (usecaseCreatePrepared o)

/-- `Repository.GetAll` (part_002:57-63): every row, no user filter. -/
def repoGetAll (st : OrderStore) : List Order := st.orders

/-- `Repository.GetByID` (part_002:65-74). -/
def repoGetByID (st : OrderStore) (id : Int) : Except AppError Order :=
  match st.orders.find? (fun o => o.id = id) with
  | none => .error (NewAppErrorWithType .notFound)
  | some o => .ok o

/-- `Repository.GetByUserID` (part_002:76-82): rows filtered by
`user_id = ?`. -/
def repoGetByUserID (st : OrderStore) (userID : Int) : List Order :=
  st.orders.filter (fun o => o.userID = userID)

/-- `Repository.UpdateStatus` (part_002:96-109): `First` by id
(`NotFound` when no row), then write the status column and reload. -/
def repoUpdateStatus (st : OrderStore) (id : Int) (status : String) :
    Except AppError (Order × OrderStore) :=
  match st.orders.find? (fun o => o.id = id) with
  | none => .error (NewAppErrorWithType .notFound)
  | some o =>
    let updated := { o with status := status }
    .ok (updated,
         { st with orders :=
             st.orders.map fun q => if q.id = id then updated else q })

/-! ### services/order HTTP handler (handler.go).

Request binding: `NewOrderRequest` has
`Items []OrderItemRequest json:"items" binding:"required"` and no `dive`
rule, so the go-playground validator only rejects a nil items slice
(absent or null field); it does not descend into the elements, hence
quantities and prices of the items are not validated at all at this
layer (`OrderItemRequest`'s own `required` tags only take effect under a
`dive`).  A binding failure is wrapped as `ValidationError`
(handler.go:102-107). -/

structure OrderItemRequest where
  productID : Int
  quantity : Int
  price : Rat
deriving DecidableEq, Repr

/-- `controllers.BindJSON` + validator on `NewOrderRequest`: `none`
models an absent or null `items` field (nil slice → `required` fails);
a present list — even empty — binds successfully. -/
def bindNewOrder (items? : Option (List OrderItemRequest)) :
    Except AppError (List OrderItemRequest) :=
  match items? with
  | none => .error (NewAppError "Field validation for Items failed on the required tag" .validationError)
  | some l => .ok l

/-- `Handler.NewOrder` (handler.go:102-128): bind, read the principal id
the auth middleware stored under `userId`, build the domain order (only
product id, quantity, price are taken) and call the use case. -/
def NewOrderHandler (st : OrderStore) (userID : Int)
    (items? : Option (List OrderItemRequest)) :
    Except AppError (Order × OrderStore) :=
  match bindNewOrder items? with
  | .error e => .error e
  | .ok reqItems =>
    let items := reqItems.map fun it =>
      ({ productID := it.productID, quantity := it.quantity,
         price := it.price } : OrderItem)
    .ok (usecaseCreate st { userID := userID, items := items })

/-- `controllers.BindJSON` + validator on `UpdateStatusRequest`
(`Status string binding:"required"`): absent/null or empty-string status
fails the `required` rule (zero value), anything else binds. -/
def bindUpdateStatus (status? : Option String) : Except AppError String :=
  match status? with
  | none => .error (NewAppError "Field validation for Status failed on the required tag" .validationError)
  | some s =>
    if s = "" then
      .error (NewAppError "Field validation for Status failed on the required tag" .validationError)
    else .ok s

/-- `Handler.UpdateOrderStatus` (handler.go:138-155): bind and delegate;
no allow-set check on the status value. -/
def UpdateOrderStatusHandler (st : OrderStore) (id : Int)
    (status? : Option String) : Except AppError (Order × OrderStore) :=
  match bindUpdateStatus status? with
  | .error e => .error e
  | .ok s => repoUpdateStatus st id s

/-- `Handler.GetAllOrders` (handler.go:65-72): wired as `GET /order/` in
services/order/main.go; returns every order of every user. -/
def GetAllOrdersHandler (st : OrderStore) : List Order :=
  repoGetAll st

/-- `Handler.GetOrderByID` (handler.go:81-93): no ownership check
against the caller's principal id. -/
def GetOrderByIDHandler (st : OrderStore) (id : Int) :
    Except AppError Order :=
  repoGetByID st id

/-! ### gbrayhan tree (src/src): order controller and repository. -/

/-- The allow-set of `Controller.UpdateOrderStatus`
(category.go:408-416). -/
def validStatuses : List String :=
  ["pending", "paid", "shipped", "delivered", "cancelled"]

/-- gbrayhan `Repository.UpdateStatus` (order.go:95-105): `Update` by id
(no error when zero rows are matched), then reload with `First`; a
missing row surfaces as `NotFound` from the reload. -/
def gbRepoUpdateStatus (st : OrderStore) (id : Int) (status : String) :
    Except AppError (Order × OrderStore) :=
  let st' : OrderStore :=
    { st with orders :=
        st.orders.map fun q => if q.id = id then { q with status := status } else q }
  match st'.orders.find? (fun o => o.id = id) with
  | none => .error (NewAppErrorWithType .notFound)
  | some o => .ok (o, st')

/-- gbrayhan `Controller.UpdateOrderStatus` (category.go:394-424): bind,
reject a status outside the allow-set with `ValidationError`, then
delegate to the repository. -/
def GbUpdateOrderStatusCtrl (st : OrderStore) (id : Int)
    (status? : Option String) : Except AppError (Order × OrderStore) :=
  match bindUpdateStatus status? with
  | .error e => .error e
  | .ok s =>
    if s ∈ validStatuses then gbRepoUpdateStatus st id s
    else .error (NewAppError "invalid status: must be pending, paid, shipped, delivered, or cancelled" .validationError)

/-- gbrayhan `Controller.GetMyOrders` (category.go:363-378): list route
scoped to the caller's principal id via `GetByUserID`. -/
def GetMyOrdersCtrl (st : OrderStore) (userID : Int) : List Order :=
  repoGetByUserID st userID

end OrderSvc

/-! ## Catalog service: product repository (part_001, the concatenated
services/catalog repository file).  The store is PostgreSQL
(pkg/psql in the second concatenated file of error_handler.go opens the
connection with `gorm.io/driver/postgres`). -/

namespace Catalog

/-- The product row; the auto-maintained created/updated timestamps are
omitted (the spec's partial-update claim explicitly exempts the updated
timestamp). -/
structure Product where
  id : Int := 0
  name : String
  description : String := ""
  sku : String
  price : Rat
  stock : Int := 0
  categoryID : Int
  imageURL : String := ""
  isActive : Bool := true
deriving DecidableEq, Repr

/-- A Go `interface\x7b\x7d` value inside a partial-update map. -/
inductive GoVal where
  | int (n : Int)
  | str (s : String)
  | rat (q : Rat)
  | bool (b : Bool)
deriving DecidableEq, Repr

/-- GORM `Updates(map[string]interface\x7b\x7d)` applied to one product
row: a key naming a column of the `Product` model (JSON/field names as
the catalog handler passes them through uninterpreted) assigns that
column when the value has the right dynamic type; any other key touches
no column of the row. -/
def applyUpdateField (p : Product) (key : String) (v : GoVal) : Product :=
  match key, v with
  | "name", .str s => { p with name := s }
  | "description", .str s => { p with description := s }
  | "sku", .str s => { p with sku := s }
  | "price", .rat q => { p with price := q }
  | "price", .int n => { p with price := (n : Rat) }
  | "stock", .int n => { p with stock := n }
  | "category_id", .int n => { p with categoryID := n }
  | "image_url", .str s => { p with imageURL := s }
  | "is_active", .bool b => { p with isActive := b }
  | _, _ => p

def applyUpdates (p : Product) (m : List (String × GoVal)) : Product :=
  m.foldl (fun q kv => applyUpdateField q kv.1 kv.2) p

/-- `ProductRepository.Update` (part_001:183-193): run `Updates(m)` on
the rows matching the id, then reload with `First`; a missing row
surfaces as `NotFound` from the reload. -/
def productRepoUpdate (store : List Product) (id : Int)
    (m : List (String × GoVal)) : Except AppError (Product × List Product) :=
  let store' := store.map fun p => if p.id = id then applyUpdates p m else p
  match store'.find? (fun p => p.id = id) with
  | none => .error (NewAppErrorWithType .notFound)
  | some p => .ok (p, store')

/-! ### Duplicate-key detection (part_001:169-181).

On a unique-constraint violation the PostgreSQL driver returns a
`pgconn.PgError`; the repository round-trips that error through
`json.Marshal` / `json.Unmarshal` into `GormErr` and maps it to
`ResourceAlreadyExists` only when `Number = 1062`. -/

/-- `GormErr` as documented in-repo (CODING_GUIDELINES "Parse GORM
duplicate key errors": `gormErr.Number`, `gormErr.Message`; the struct
lives in the not-included `pkg/errors` file).  `json.Unmarshal` leaves a
field at its zero value when the JSON has no matching key. -/
structure GormErr where
  number : Int := 0
  message : String := ""
deriving DecidableEq, Repr

/-- Modelled from the postgres driver used by pkg/psql: a duplicate-key
violation is a `pgconn.PgError` whose exported fields include
`Severity`, `Code` (the SQLSTATE, "23505" for unique violations) and
`Message` — there is no `Number` field. -/
structure PgError where
  severity : String := "ERROR"
  code : String
  message : String
deriving DecidableEq, Repr

def pgDuplicateKeyError (constraintMsg : String) : PgError :=
  { code := "23505", message := constraintMsg }

/-- `json.Marshal` of the driver error: the exported field names become
the JSON keys. -/
def marshalPgError (e : PgError) : List (String × GoVal) :=
  [("Severity", .str e.severity), ("Code", .str e.code),
   ("Message", .str e.message)]

/-- `json.Unmarshal` of that JSON into `GormErr`: `Number` has no
matching key in a `pgconn.PgError`, so it stays 0; `Message` matches. -/
def unmarshalGormErr (fields : List (String × GoVal)) : GormErr :=
  let number := match fields.lookup "Number" with
                | some (.int n) => n
                | _ => 0
  let message := match fields.lookup "Message" with
                 | some (.str s) => s
                 | _ => ""
  { number := number, message := message }

/-- `ProductRepository.Create` (part_001:169-181): insert; on a
duplicate SKU the store rejects the row (unique constraint on `sku`),
the error is decoded into `GormErr` and mapped to
`ResourceAlreadyExists` iff its `Number` is 1062 (MySQL's
duplicate-entry code), otherwise `UnknownError`. -/
def productRepoCreate (store : List Product) (nextID : Int)
    (d : Product) : Except AppError (Product × List Product) :=
  if store.any (fun p => p.sku = d.sku) then
    let ge := unmarshalGormErr (marshalPgError
      (pgDuplicateKeyError "duplicate key value violates unique constraint"))
    if ge.number = 1062 then
      .error (NewAppErrorWithType .resourceAlreadyExists)
    else
      .error (NewAppErrorWithType .unknownError)
  else
    let stored := { d with id := nextID }
    .ok (stored, store ++ [stored])

end Catalog

/-! ## User service: repository GetByEmail and AuthUseCase.Login
(services/user/repository/user_repository.go,
services/user/usecase/usecase.go). -/

namespace UserSvc

structure User where
  id : Int := 0
  userName : String := ""
  email : String := ""
  firstName : String := ""
  lastName : String := ""
  status : Bool := false
  hashPassword : String := ""
deriving DecidableEq, Repr

/-- `Repository.GetByEmail` (user_repository.go:72-82): `First` by
email; when no row matches it returns the empty `&userDomain.User\x7b\x7d`
together with a `NotFound` AppError. -/
def getByEmail (store : List User) (email : String) :
    User × Option AppError :=
  match store.find? (fun u => u.email = email) with
  | none => ({ }, some (NewAppErrorWithType .notFound))
  | some u => (u, none)

/-- `AuthUseCase.Login` (usecase.go:90-119), with the bcrypt comparison
abstracted as a parameter `check hash password` (the adaptive salted
hash primitive is an external collaborator; only its success/failure
matters here).  Token generation is the JWT service at the ambient
config and clock.  Result: the principal together with the issued
access/refresh token pair. -/
def login (check : String → String → Bool) (cfg : Security.JWTConfig)
    (now : Int) (store : List User) (email password : String) :
    Except AppError (User × Security.AppToken × Security.AppToken) :=
  match getByEmail store email with
  | (_, some err) => .error err
  | (user, none) =>
    if user.id = 0 then
      .error (NewAppError "email or password does not match" .notAuthenticated)
    else if ¬ check user.hashPassword password then
      .error (NewAppError "email or password does not match" .notAuthenticated)
    else
      match Security.GenerateJWTToken cfg now user.id Security.Access,
            Security.GenerateJWTToken cfg now user.id Security.Refresh with
      | .ok access, .ok refresh => .ok (user, access, refresh)
      | _, _ =>
        .error (NewAppError "token generation failed" .tokenGeneratorError)

end UserSvc

/-! ## Generic helpers -/

instance {ε α : Type} [DecidableEq ε] [DecidableEq α] :
    DecidableEq (Except ε α) := fun a b =>
  match a, b with
  | .ok x, .ok y =>
    if h : x = y then isTrue (by rw [h])
    else isFalse (fun hh => by cases hh; exact h rfl)
  | .error x, .error y =>
    if h : x = y then isTrue (by rw [h])
    else isFalse (fun hh => by cases hh; exact h rfl)
  | .ok _, .error _ => isFalse (fun hh => by cases hh)
  | .error _, .ok _ => isFalse (fun hh => by cases hh)

/-! ## Sample data used by the concrete witnesses and counterexamples -/

namespace Samples

open Security OrderSvc Catalog UserSvc

/-- An order-creation input carrying a client-supplied total (999) that
the use case must discard. -/
def sampleOrder : OrderSvc.Order :=
  { userID := 1, totalAmount := 999,
    items := [({ productID := 1, quantity := 2, price := 3 } : OrderItem),
              ({ productID := 2, quantity := 5, price := 4 } : OrderItem)] }

/-- A store holding one pending order with id 1 owned by user 9. -/
def oneOrderStore : OrderStore :=
  { nextID := 2,
    orders := [{ id := 1, userID := 9, status := "pending", items := [] }] }

/-- A store holding orders of two different users. -/
def twoUserStore : OrderStore :=
  { nextID := 3,
    orders := [{ id := 1, userID := 1, items := [] },
               { id := 2, userID := 2, items := [] }] }

def sampleProduct : Product :=
  { name := "Widget", sku := "SKU-1", price := 10, categoryID := 1, stock := 3 }

/-- A second product reusing the SKU of `sampleProduct`. -/
def dupSkuProduct : Product :=
  { name := "Other", sku := "SKU-1", price := 4, categoryID := 1 }

/-- The refresh token issued by the default config for principal 7 at
clock 1000 (24 h validity → exp 87400). -/
def refreshSample : AppToken :=
  { token := { alg := "HS256",
               claims := { id := some (.num 7),
                           typ := some (.str "refresh"),
                           exp := some (.num 87400) },
               sig := "default_refresh_secret" },
    tokenType := "refresh",
    expirationTime := 87400 }

/-- A well-formed access token for principal 7 under the default config
whose `exp` claim is the given instant. -/
def tokenWithExp (e : Int) : SignedToken :=
  { alg := "HS256",
    claims := { id := some (.num 7),
                typ := some (.str "access"),
                exp := some (.num e) },
    sig := "default_access_secret" }

/-- A stand-in for the bcrypt comparison: the stored hash of `p` is
`"hashed:" ++ p` (only the success/failure of the comparison matters to
the login control flow). -/
def demoCheck (hash password : String) : Bool := hash = "hashed:" ++ password

def demoUsers : List UserSvc.User :=
  [{ id := 7, email := "a@x.com", hashPassword := "hashed:p" }]

end Samples

/-! ## Theorems -/

namespace OrderSvc

/-- The subtotals computed by `OrderUseCase.Create` sum to the sum of
`quantity * price` over the input items. -/
theorem computeItems_subtotal_sum (items : List OrderItem) :
    ((computeItems items).map (·.subtotal)).sum
      = (items.map (fun it => (it.quantity : Rat) * it.price)).sum := by
  simp [computeItems, List.map_map, Function.comp_def]

/-- Each item of `computeItems items` carries its own
`quantity * price` as subtotal. -/
theorem computeItems_subtotal_eq (items : List OrderItem) :
    ∀ it ∈ computeItems items,
      it.subtotal = (it.quantity : Rat) * it.price := by
  intro it hit
  simp only [computeItems, List.mem_map] at hit
  obtain ⟨x, _, rfl⟩ := hit
  rfl

/-- C1: for every order-creation input with a non-empty item list whose
quantities and prices are all positive, the order returned by
`OrderUseCase.Create` has `TotalAmount` equal to the exact sum over the
input items of `quantity * price`, every returned item's `Subtotal`
equals its own `quantity * price`, and the client-supplied
`totalAmount` of the input plays no role (the right-hand sides never
mention it). -/
theorem c1_order_total_invariant (st : OrderStore) (o : Order)
    (hne : o.items ≠ [])
    (hpos : ∀ it ∈ o.items, 0 < it.quantity ∧ 0 < it.price) :
    (usecaseCreate st o).1.totalAmount
        = (o.items.map (fun it => (it.quantity : Rat) * it.price)).sum
      ∧ ∀ it ∈ (usecaseCreate st o).1.items,
          it.subtotal = (it.quantity : Rat) * it.price := by
  constructor
  · show ((computeItems o.items).map (·.subtotal)).sum = _
    exact computeItems_subtotal_sum o.items
  · intro it hit
    have hmem : it ∈ (computeItems o.items).map
        (fun x => { x with orderID := st.nextID }) := hit
    simp only [List.mem_map] at hmem
    obtain ⟨x, hx, rfl⟩ := hmem
    simpa using computeItems_subtotal_eq o.items x hx

/-- C1 witness: the hypotheses hold at `sampleOrder` (two items,
quantities 2 and 5, prices 3 and 4, client total 999) and the theorem
applies there. -/
theorem c1_order_total_invariant_witness :
    (Samples.sampleOrder.items ≠ []
      ∧ ∀ it ∈ Samples.sampleOrder.items, 0 < it.quantity ∧ 0 < it.price)
    ∧ ((usecaseCreate {} Samples.sampleOrder).1.totalAmount
          = (Samples.sampleOrder.items.map
              (fun it => (it.quantity : Rat) * it.price)).sum
        ∧ ∀ it ∈ (usecaseCreate {} Samples.sampleOrder).1.items,
            it.subtotal = (it.quantity : Rat) * it.price) :=
  ⟨⟨by decide, by decide⟩,
   c1_order_total_invariant {} Samples.sampleOrder (by decide) (by decide)⟩

end OrderSvc

namespace Security

/-- A claim set whose `exp` is a number strictly above `now` passes the
library-side claim validation. -/
theorem mapClaimsExpOk_of_lt (now e : Int) (c : TokenClaims)
    (hc : c.exp = some (.num e)) (h : now < e) :
    mapClaimsExpOk now c = true := by
  unfold mapClaimsExpOk
  rw [hc]
  by_cases h0 : e = 0 <;> simp [h0, h]

/-- The verifier accepts any HS256 token signed with the secret it
derives for the expected type, whose `type` claim matches, whose `exp`
claim is a number strictly in the future, and whose `id` claim is a
number. -/
theorem verify_ok (cfg : JWTConfig) (now : Int) (tok : SignedToken)
    (tokenType : String) (uid e : Int)
    (halg : tok.alg = "HS256")
    (hsig : tok.sig = if tokenType = Refresh then cfg.refreshSecret
                      else cfg.accessSecret)
    (htyp : tok.claims.typ = some (.str tokenType))
    (hexp : tok.claims.exp = some (.num e))
    (hlt : now < e)
    (hid : tok.claims.id = some (.num uid)) :
    GetClaimsAndVerifyToken cfg now tok tokenType = .ok tok.claims := by
  unfold GetClaimsAndVerifyToken
  rw [if_neg (by simp [halg]), if_neg (by simp [hsig]),
      if_neg (by simp [mapClaimsExpOk_of_lt now e tok.claims hexp hlt]),
      if_neg (by simp [claimIsStr, htyp])]
  simp only [hexp, hid]
  rw [if_neg (by omega)]

/-- C2: for every config with positive validity durations, every
principal id and both token types, verifying a token immediately after
issuing it with the same expected type succeeds and the claim set's
`id` claim is the principal id it was issued for. -/
theorem c2_token_round_trip (cfg : JWTConfig) (now userID : Int)
    (tokenType : String)
    (htype : tokenType = Access ∨ tokenType = Refresh)
    (hacc : 0 < cfg.accessTime) (href : 0 < cfg.refreshTime) :
    ∃ t, GenerateJWTToken cfg now userID tokenType = .ok t
      ∧ GetClaimsAndVerifyToken cfg now t.token tokenType = .ok t.token.claims
      ∧ t.token.claims.id = some (.num userID) := by
  rcases htype with h | h <;> subst h
  · refine ⟨{ token := { alg := "HS256",
                         claims := { id := some (.num userID),
                                     typ := some (.str Access),
                                     exp := some (.num (now + cfg.accessTime * 60)) },
                         sig := cfg.accessSecret },
              tokenType := Access,
              expirationTime := now + cfg.accessTime * 60 }, ?_, ?_, rfl⟩
    · unfold GenerateJWTToken
      rw [if_pos rfl]
    · exact verify_ok cfg now _ Access userID (now + cfg.accessTime * 60)
        rfl (by rw [if_neg (by decide)]) rfl rfl (by omega) rfl
  · refine ⟨{ token := { alg := "HS256",
                         claims := { id := some (.num userID),
                                     typ := some (.str Refresh),
                                     exp := some (.num (now + cfg.refreshTime * 3600)) },
                         sig := cfg.refreshSecret },
              tokenType := Refresh,
              expirationTime := now + cfg.refreshTime * 3600 }, ?_, ?_, rfl⟩
    · unfold GenerateJWTToken
      rw [if_neg (by decide), if_pos rfl]
    · exact verify_ok cfg now _ Refresh userID (now + cfg.refreshTime * 3600)
        rfl (by rw [if_pos rfl]) rfl rfl (by omega) rfl

/-- C2 witness: the default config has durations 60 minutes and 24
hours, and the round trip holds there for principal 7 and type
`access` at clock 1000. -/
theorem c2_token_round_trip_witness :
    ((Access = Access ∨ Access = Refresh)
      ∧ 0 < defaultConfig.accessTime ∧ 0 < defaultConfig.refreshTime)
    ∧ ∃ t, GenerateJWTToken defaultConfig 1000 7 Access = .ok t
      ∧ GetClaimsAndVerifyToken defaultConfig 1000 t.token Access
          = .ok t.token.claims
      ∧ t.token.claims.id = some (.num 7) :=
  ⟨⟨Or.inl rfl, by decide, by decide⟩,
   c2_token_round_trip defaultConfig 1000 7 Access (Or.inl rfl)
     (by decide) (by decide)⟩

/-- C3: a token issued as `refresh` fails verification against expected
type `access` with a `NotAuthenticated` error, and vice versa — via the
secret mismatch when the two secrets differ, and via the `type` claim
check otherwise. -/
theorem c3_token_type_isolation (cfg : JWTConfig) (now userID : Int) :
    (∀ t, GenerateJWTToken cfg now userID Refresh = .ok t →
        ∃ e, GetClaimsAndVerifyToken cfg now t.token Access = .error e
          ∧ e.kind = .notAuthenticated)
    ∧ (∀ t, GenerateJWTToken cfg now userID Access = .ok t →
        ∃ e, GetClaimsAndVerifyToken cfg now t.token Refresh = .error e
          ∧ e.kind = .notAuthenticated) := by
  constructor
  · intro t ht
    unfold GenerateJWTToken at ht
    rw [if_neg (by decide), if_pos rfl] at ht
    injection ht with h
    subst h
    unfold GetClaimsAndVerifyToken
    rw [if_neg (by simp)]
    by_cases hsec : cfg.refreshSecret
        ≠ (if Access = Refresh then cfg.refreshSecret else cfg.accessSecret)
    · rw [if_pos hsec]
      exact ⟨_, rfl, rfl⟩
    · rw [if_neg hsec]
      by_cases hexp : mapClaimsExpOk now
          { id := some (.num userID), typ := some (.str Refresh),
            exp := some (.num (now + cfg.refreshTime * 3600)) } = true
      · rw [if_neg (by simp [hexp]), if_pos (by simp [claimIsStr, Access, Refresh])]
        exact ⟨_, rfl, rfl⟩
      · rw [if_pos (by simpa using hexp)]
        exact ⟨_, rfl, rfl⟩
  · intro t ht
    unfold GenerateJWTToken at ht
    rw [if_pos rfl] at ht
    injection ht with h
    subst h
    unfold GetClaimsAndVerifyToken
    rw [if_neg (by simp)]
    by_cases hsec : cfg.accessSecret
        ≠ (if Refresh = Refresh then cfg.refreshSecret else cfg.accessSecret)
    · rw [if_pos hsec]
      exact ⟨_, rfl, rfl⟩
    · rw [if_neg hsec]
      by_cases hexp : mapClaimsExpOk now
          { id := some (.num userID), typ := some (.str Access),
            exp := some (.num (now + cfg.accessTime * 60)) } = true
      · rw [if_neg (by simp [hexp]), if_pos (by simp [claimIsStr, Access, Refresh])]
        exact ⟨_, rfl, rfl⟩
      · rw [if_pos (by simpa using hexp)]
        exact ⟨_, rfl, rfl⟩

/-- C3 witness: the theorem applied to the default config, principal 7,
clock 1000 and the concretely issued refresh token. -/
theorem c3_token_type_isolation_witness :
    (GenerateJWTToken defaultConfig 1000 7 Refresh = .ok Samples.refreshSample)
    ∧ ∃ e, GetClaimsAndVerifyToken defaultConfig 1000
          Samples.refreshSample.token Access = .error e
        ∧ e.kind = .notAuthenticated :=
  ⟨by decide,
   (c3_token_type_isolation defaultConfig 1000 7).1 Samples.refreshSample
     (by decide)⟩

/-- C4: verification at clock `now > 0` rejects — with
`NotAuthenticated` — every token whose `exp` claim equals `now` exactly
(the strict `now < exp` check of the library's claim validation fires
before the repository's own lenient `now > exp` check is reached), while
an otherwise well-formed token whose `exp` claim is `now + 1` is
accepted. -/
theorem c4_expiry_boundary (cfg : JWTConfig) (now : Int)
    (tok : SignedToken) (tokenType : String) (uid : Int)
    (hnow : 0 < now) :
    (tok.claims.exp = some (.num now) →
      ∃ e, GetClaimsAndVerifyToken cfg now tok tokenType = .error e
        ∧ e.kind = .notAuthenticated)
    ∧ (tok.alg = "HS256" →
       tok.sig = (if tokenType = Refresh then cfg.refreshSecret
                  else cfg.accessSecret) →
       tok.claims.typ = some (.str tokenType) →
       tok.claims.id = some (.num uid) →
       tok.claims.exp = some (.num (now + 1)) →
       GetClaimsAndVerifyToken cfg now tok tokenType = .ok tok.claims) := by
  constructor
  · intro hexp
    unfold GetClaimsAndVerifyToken
    by_cases halg : tok.alg ≠ "HS256"
    · rw [if_pos halg]
      exact ⟨_, rfl, rfl⟩
    · rw [if_neg halg]
      by_cases hsig : tok.sig ≠ (if tokenType = Refresh then cfg.refreshSecret
                                 else cfg.accessSecret)
      · rw [if_pos hsig]
        exact ⟨_, rfl, rfl⟩
      · rw [if_neg hsig]
        rw [if_pos (by simp [mapClaimsExpOk, hexp]; omega)]
        exact ⟨_, rfl, rfl⟩
  · intro halg hsig htyp hid hexp
    exact verify_ok cfg now tok tokenType uid (now + 1) halg hsig htyp hexp
      (by omega) hid

/-- C4 witness: under the default config at clock 1000, the token with
`exp = 1000` is rejected as `NotAuthenticated` and the token with
`exp = 1001` is accepted. -/
theorem c4_expiry_boundary_witness :
    (0 < (1000 : Int))
    ∧ (∃ e, GetClaimsAndVerifyToken defaultConfig 1000
          (Samples.tokenWithExp 1000) Access = .error e
        ∧ e.kind = .notAuthenticated)
    ∧ GetClaimsAndVerifyToken defaultConfig 1000
        (Samples.tokenWithExp 1001) Access
      = .ok (Samples.tokenWithExp 1001).claims :=
  ⟨by decide,
   (c4_expiry_boundary defaultConfig 1000 (Samples.tokenWithExp 1000)
      Access 7 (by decide)).1 (by decide),
   (c4_expiry_boundary defaultConfig 1000 (Samples.tokenWithExp 1001)
      Access 7 (by decide)).2 (by decide) (by decide) (by decide)
     (by decide) (by decide)⟩

end Security

namespace UserSvc

/-- C5: the two login failure modes are distinguishable, contrary to the
claim.  For an email matching no stored principal, `GetByEmail` returns
a `NotFound` AppError which `Login` propagates unchanged (its own
`NotAuthenticated` branch for `user.ID == 0` is unreachable, because
`GetByEmail` always pairs the empty user with a non-nil error); a wrong
password against an existing email yields `NotAuthenticated`.  The kinds,
the HTTP statuses (404 vs 401) and the wire bodies all differ. -/
theorem c5_login_error_divergence :
    (login Samples.demoCheck Security.defaultConfig 1000 Samples.demoUsers
        "ghost@x.com" "p" = .error (NewAppErrorWithType .notFound))
    ∧ (login Samples.demoCheck Security.defaultConfig 1000 Samples.demoUsers
        "a@x.com" "wrong"
        = .error (NewAppError "email or password does not match"
            .notAuthenticated))
    ∧ (NewAppErrorWithType ErrorType.notFound).kind
        ≠ (NewAppError "email or password does not match"
            ErrorType.notAuthenticated).kind
    ∧ (AppErrorToHTTP (NewAppErrorWithType .notFound)).1 = 404
    ∧ (AppErrorToHTTP (NewAppError "email or password does not match"
        .notAuthenticated)).1 = 401
    ∧ errorBody (NewAppErrorWithType .notFound)
        ≠ errorBody (NewAppError "email or password does not match"
            .notAuthenticated) :=
  ⟨by decide, by decide, by decide, by decide, by decide, by decide⟩

end UserSvc

namespace OrderSvc

/-- C6 counterexample: a creation request whose `items` field is present
but empty is not rejected — the handler returns a created order with
total 0 instead of a `ValidationError` (the binding `required` rule only
rejects a nil slice, and neither the handler nor the use case checks
emptiness or positivity). -/
theorem c6_counterexample :
    NewOrderHandler {} 1 (some [])
      = .ok ({ id := 1, userID := 1, status := "pending", totalAmount := 0,
               items := [] },
             { nextID := 2,
               orders := [{ id := 1, userID := 1, status := "pending",
                            totalAmount := 0, items := [] }] }) := by
  decide

/-- C6 amended: order creation fails with a `ValidationError` exactly
when the request's `items` field is absent or null (the binding
`required` rule); any present item list — empty, or with zero or
negative quantities and prices — is accepted and produces an order with
the computed total. -/
theorem c6_amended (st : OrderStore) (userID : Int) :
    (∃ e, NewOrderHandler st userID none = .error e
        ∧ e.kind = .validationError)
    ∧ ∀ items, ∃ res, NewOrderHandler st userID (some items) = .ok res
        ∧ res.1.totalAmount
            = (items.map (fun it => (it.quantity : Rat) * it.price)).sum := by
  constructor
  · exact ⟨_, rfl, rfl⟩
  · intro items
    refine ⟨_, rfl, ?_⟩
    show ((computeItems _).map (·.subtotal)).sum = _
    rw [computeItems_subtotal_sum]
    simp [List.map_map, Function.comp_def]

/-- `bindUpdateStatus` accepts every non-empty status string. -/
theorem bindUpdateStatus_ok (s : String) (hs : s ≠ "") :
    bindUpdateStatus (some s) = .ok s := by
  simp [bindUpdateStatus, hs]

/-- `find?` by id over the orders list after rewriting the status of
the rows matching that id: the found row is the original one with the
new status. -/
theorem find?_setStatus (orders : List Order) (id : Int) (s : String) :
    (orders.map fun q => if q.id = id then { q with status := s } else q).find?
        (fun o => o.id = id)
      = (orders.find? (fun o => o.id = id)).map
          (fun q => { q with status := s }) := by
  induction orders with
  | nil => rfl
  | cons a t ih =>
    by_cases hq : a.id = id
    · simp [List.find?, hq]
    · simp [List.find?, hq, ih]

/-- C7 counterexample: the wired order-service handler applies the
status `"bogus"` — which is outside the allow-set — to an existing
order instead of failing with a `ValidationError`. -/
theorem c7_counterexample :
    UpdateOrderStatusHandler Samples.oneOrderStore 1 (some "bogus")
      = .ok ({ id := 1, userID := 9, status := "bogus", items := [] },
             { nextID := 2,
               orders := [{ id := 1, userID := 9, status := "bogus",
                            items := [] }] }) := by
  decide

/-- C7 amended: for a bound (non-empty) status string, the wired
order-service handler fails with `NotFound` when no order has the id and
otherwise applies any status string whatsoever; the allow-set check
exists only in the src/src controller, which rejects a status outside
`\x7bpending, paid, shipped, delivered, cancelled\x7d` with a
`ValidationError` and fails with `NotFound` (from its reload) for an
unknown id. -/
theorem c7_amended (st : OrderStore) (id : Int) (s : String)
    (hs : s ≠ "") :
    (st.orders.find? (fun o => o.id = id) = none →
       UpdateOrderStatusHandler st id (some s)
         = .error (NewAppErrorWithType .notFound))
    ∧ (∀ o, st.orders.find? (fun o => o.id = id) = some o →
       ∃ res, UpdateOrderStatusHandler st id (some s) = .ok res
         ∧ res.1.status = s ∧ res.1.id = o.id ∧ res.1.userID = o.userID)
    ∧ (s ∉ validStatuses →
       GbUpdateOrderStatusCtrl st id (some s)
         = .error (NewAppError
             "invalid status: must be pending, paid, shipped, delivered, or cancelled"
             .validationError))
    ∧ (s ∈ validStatuses → st.orders.find? (fun o => o.id = id) = none →
       GbUpdateOrderStatusCtrl st id (some s)
         = .error (NewAppErrorWithType .notFound)) := by
  have hbind := bindUpdateStatus_ok s hs
  refine ⟨?_, ?_, ?_, ?_⟩
  · intro hnone
    simp [UpdateOrderStatusHandler, hbind, repoUpdateStatus, hnone]
  · intro o ho
    refine ⟨({ o with status := s },
             { st with orders := st.orders.map fun q =>
                 if q.id = id then { o with status := s } else q }), ?_, rfl, rfl, rfl⟩
    simp [UpdateOrderStatusHandler, hbind, repoUpdateStatus, ho]
  · intro hval
    simp [GbUpdateOrderStatusCtrl, hbind, hval]
  · intro hval hnone
    simp only [GbUpdateOrderStatusCtrl, hbind]
    rw [if_pos hval]
    simp only [gbRepoUpdateStatus]
    rw [find?_setStatus st.orders id s, hnone]
    rfl

/-- C7 witness: at the store with one pending order (id 1), the status
`"bogus"` is outside the allow-set and the src/src controller rejects it
with a `ValidationError`, while `NotFound` is produced for the unknown
id 5 with the valid status `"paid"`. -/
theorem c7_amended_witness :
    (("bogus" : String) ≠ "" ∧ "bogus" ∉ validStatuses
      ∧ ("paid" : String) ≠ ""
      ∧ Samples.oneOrderStore.orders.find? (fun o => o.id = 5) = none)
    ∧ GbUpdateOrderStatusCtrl Samples.oneOrderStore 1 (some "bogus")
        = .error (NewAppError
            "invalid status: must be pending, paid, shipped, delivered, or cancelled"
            .validationError)
    ∧ UpdateOrderStatusHandler Samples.oneOrderStore 5 (some "paid")
        = .error (NewAppErrorWithType .notFound) :=
  ⟨⟨by decide, by decide, by decide, by decide⟩,
   (c7_amended Samples.oneOrderStore 1 "bogus" (by decide)).2.2.1 (by decide),
   (c7_amended Samples.oneOrderStore 5 "paid" (by decide)).1 (by decide)⟩

/-- C9 counterexample: with the caller authenticated as principal 1,
both read routes of the wired order service return an order owned by
user 2: the list route returns every order of every user, and the
get-by-id route returns any order without an ownership check. -/
theorem c9_counterexample :
    (({ id := 2, userID := 2, items := [] } : Order)
        ∈ GetAllOrdersHandler Samples.twoUserStore)
    ∧ GetOrderByIDHandler Samples.twoUserStore 2
        = .ok { id := 2, userID := 2, items := [] }
    ∧ ({ id := 2, userID := 2, items := [] } : Order).userID ≠ 1 :=
  ⟨by decide, by decide, by decide⟩

/-- C9 amended: the src/src list route (`GetMyOrders` → `GetByUserID`)
is scoped to the caller — every returned order carries the caller's
principal id — but the wired order-service list route returns the whole
orders table, and get-by-id returns the order with the requested id
regardless of its owner. -/
theorem c9_amended (st : OrderStore) (userID : Int) :
    (∀ o ∈ GetMyOrdersCtrl st userID, o.userID = userID)
    ∧ GetAllOrdersHandler st = st.orders
    ∧ ∀ id o, GetOrderByIDHandler st id = .ok o → o ∈ st.orders := by
  refine ⟨?_, rfl, ?_⟩
  · intro o ho
    simp [GetMyOrdersCtrl, repoGetByUserID, List.mem_filter] at ho
    exact ho.2
  · intro id o ho
    unfold GetOrderByIDHandler repoGetByID at ho
    cases hfind : st.orders.find? (fun q => q.id = id) with
    | none => rw [hfind] at ho; cases ho
    | some q =>
      rw [hfind] at ho
      injection ho with h
      subst h
      exact List.mem_of_find?_eq_some hfind

/-- C9 witness: the scoping clause applied at the two-user store for
caller 1 and the order with id 1. -/
theorem c9_amended_witness :
    (({ id := 1, userID := 1, items := [] } : Order)
        ∈ GetMyOrdersCtrl Samples.twoUserStore 1)
    ∧ ({ id := 1, userID := 1, items := [] } : Order).userID = 1 :=
  ⟨by decide, (c9_amended Samples.twoUserStore 1).1 _ (by decide)⟩

end OrderSvc

namespace Catalog

/-- C8: creating a product with a fresh SKU succeeds, but the second
creation with the same SKU fails with `UnknownError` (HTTP 500), not
`ResourceAlreadyExists` (409): the repository checks the decoded error's
`Number` against MySQL's duplicate-entry code 1062, while the postgres
driver's duplicate-key error carries SQLSTATE "23505" in a `Code` field
and has no `Number` field at all, so the decoded `Number` is always 0. -/
theorem c8_duplicate_sku_maps_to_unknown :
    (productRepoCreate [] 1 Samples.sampleProduct
        = .ok ({ Samples.sampleProduct with id := 1 },
               [{ Samples.sampleProduct with id := 1 }]))
    ∧ productRepoCreate [{ Samples.sampleProduct with id := 1 }] 2
        Samples.dupSkuProduct
        = .error (NewAppErrorWithType .unknownError)
    ∧ ErrorType.unknownError ≠ ErrorType.resourceAlreadyExists
    ∧ (AppErrorToHTTP (NewAppErrorWithType .unknownError)).1 = 500
    ∧ (unmarshalGormErr (marshalPgError (pgDuplicateKeyError
        "duplicate key value violates unique constraint"))).number = 0 :=
  ⟨by decide, by decide, by decide, by decide, by decide⟩

/-- `find?` by id over the products list after applying an id-preserving
partial update to the rows matching that id: the found row is the
updated original one. -/
theorem find?_applyUpdates (store : List Product) (id : Int)
    (m : List (String × GoVal))
    (hm : ∀ q : Product, (applyUpdates q m).id = q.id) :
    (store.map fun q => if q.id = id then applyUpdates q m else q).find?
        (fun q => q.id = id)
      = (store.find? (fun q => q.id = id)).map (fun q => applyUpdates q m) := by
  induction store with
  | nil => rfl
  | cons a t ih =>
    by_cases hq : a.id = id
    · simp [List.find?, hq, hm]
    · simp [List.find?, hq, ih]

/-- C10: a partial update whose field map is exactly `\x7b"stock": 5\x7d`
on an existing product changes only the stock; name, price, SKU,
description, category, image URL, active flag and id are unchanged. -/
theorem c10_partial_update_stock_isolation (store : List Product)
    (id : Int) (p : Product)
    (h : store.find? (fun q => q.id = id) = some p) :
    ∃ res, productRepoUpdate store id [("stock", .int 5)] = .ok res
      ∧ res.1.stock = 5
      ∧ res.1.name = p.name ∧ res.1.price = p.price ∧ res.1.sku = p.sku
      ∧ res.1.description = p.description
      ∧ res.1.categoryID = p.categoryID
      ∧ res.1.imageURL = p.imageURL ∧ res.1.isActive = p.isActive
      ∧ res.1.id = p.id := by
  simp only [productRepoUpdate]
  rw [find?_applyUpdates store id [("stock", .int 5)] (fun _ => rfl), h]
  exact ⟨_, rfl, rfl, rfl, rfl, rfl, rfl, rfl, rfl, rfl, rfl⟩

/-- C10 witness: the update applied to the store holding `sampleProduct`
(stock 3) at id 1. -/
theorem c10_partial_update_stock_isolation_witness :
    ([{ Samples.sampleProduct with id := 1 }].find?
        (fun q => q.id = 1) = some { Samples.sampleProduct with id := 1 })
    ∧ ∃ res, productRepoUpdate [{ Samples.sampleProduct with id := 1 }] 1
          [("stock", .int 5)] = .ok res
        ∧ res.1.stock = 5
        ∧ res.1.name = ({ Samples.sampleProduct with id := 1 } : Product).name
        ∧ res.1.price = ({ Samples.sampleProduct with id := 1 } : Product).price
        ∧ res.1.sku = ({ Samples.sampleProduct with id := 1 } : Product).sku
        ∧ res.1.description
            = ({ Samples.sampleProduct with id := 1 } : Product).description
        ∧ res.1.categoryID
            = ({ Samples.sampleProduct with id := 1 } : Product).categoryID
        ∧ res.1.imageURL
            = ({ Samples.sampleProduct with id := 1 } : Product).imageURL
        ∧ res.1.isActive
            = ({ Samples.sampleProduct with id := 1 } : Product).isActive
        ∧ res.1.id = ({ Samples.sampleProduct with id := 1 } : Product).id :=
  ⟨by decide,
   c10_partial_update_stock_isolation
     [{ Samples.sampleProduct with id := 1 }] 1
     { Samples.sampleProduct with id := 1 } (by decide)⟩

end Catalog

end ECom
